import Mathlib

/-!
Shallow embedding of the z3_wxvisor repository.

Each Python module of the repository declares z3 symbols (bit-vector variables,
uninterpreted functions, booleans) and builds scenario-specific constraint sets
that are handed to a fresh `Solver()` per scenario function.  We embed a module
as a structure of interpretations of its symbols (32-bit bit-vectors become
`Nat`; every value the source ever constrains is reduced modulo `2 ^ 32` exactly
where the source applies `BitVecVal(_, 32)`, and every asserted formula only
uses equality, `&`, boolean connectives ad `Distinct`, whose meanings on
in-range naturals agree with the bit-vector meanings), each module-level
`constraintN` as a predicate on interpretations, and each scenario function as
the satisfiability of the exact list of formulas the source adds to its solver,
in source order.  `Distinct(a, b)` is `a ≠ b`, `Implies(p, q)` over the boolean
symbols is `p = true → q`, `Or(...)` over booleans is `||`.

Two source idioms matter and are reproduced faithfully:
* several functions (`paging_wx_memory.is_writable`, `is_executable`,
  `basic_mapping`, `is_writable_and_executable`, `wxvisor.is_writable`, and all
  four scenario functions of `paging_alias_wx_unsatisfiable.py`) name their
  parameter `va`, shadowing the module-level symbolic `va`; their line
  `s.add(va == BitVecVal(va, 32))` therefore coerces the concrete Python
  integer on both sides and asserts the tautology `val == val`.  We embed that
  assertion as the (trivially true) conjunct `va % 2 ^ 32 = va % 2 ^ 32`, so the
  symbolic address stays unconstrained, as it does at runtime.
* `paging_alias_wx_unsatisfiable.py` builds
  `Implies(write, And(ro_bits(va) == phy_ro(mmu1(va))), (ro_bits(va) == False))`.
  z3py's `Implies(a, b, ctx=None)` receives the last expression in the `ctx`
  slot and ignores it, because `_ctx_from_ast_arg_list` only consults the
  default context when no argument carries one; `And` of a single formula is
  that formula.  The constraint actually asserted is therefore
  `Implies(write, ro_bits(va) == phy_ro(mmu1(va)))`, and we embed exactly that.
  Likewise `s.add(And(write == True), (execute == True))` passes two separate
  formulas to `Solver.add`, asserting both.
-/

namespace PagingWx

/-- Interpretation of the module-level z3 symbols of paging_wx_memory.py:
`mmu1`, the bit-vector variables `va`, `va1`, `va2`, `pa`, the booleans
`write`, `execute`, and the permission predicates. -/
structure Interp where
  mmu1 : Nat → Nat
  va : Nat
  va1 : Nat
  va2 : Nat
  pa : Nat
  write : Bool
  execute : Bool
  ro_bits : Nat → Bool
  nx_bits : Nat → Bool
  phy_ro : Nat → Bool
  phy_nx : Nat → Bool

/-- constraint0 = mmu1(va) == pa -/
abbrev constraint0 (i : Interp) : Prop := i.mmu1 i.va = i.pa

/-- constraint1 = (va & 0xFFF) == 0 -/
abbrev constraint1 (i : Interp) : Prop := i.va &&& 0xFFF = 0

/-- constraint2 = (pa & 0xFFF) == 0 -/
abbrev constraint2 (i : Interp) : Prop := i.pa &&& 0xFFF = 0

/-- constraint_wx = Distinct(phy_ro(mmu1(va)), phy_nx(mmu1(va))) -/
abbrev constraint_wx (i : Interp) : Prop :=
  i.phy_ro (i.mmu1 i.va) ≠ i.phy_nx (i.mmu1 i.va)

/-- constraint3 = Implies(write, ro_bits(va) == False) -/
abbrev constraint3 (i : Interp) : Prop := i.write = true → i.ro_bits i.va = false

/-- constraint4 = Implies(write, phy_ro(mmu1(va)) == False) -/
abbrev constraint4 (i : Interp) : Prop :=
  i.write = true → i.phy_ro (i.mmu1 i.va) = false

/-- constraint5 = Implies(execute, nx_bits(va) == False) -/
abbrev constraint5 (i : Interp) : Prop := i.execute = true → i.nx_bits i.va = false

/-- constraint6 = Implies(execute, phy_nx(mmu1(va)) == False) -/
abbrev constraint6 (i : Interp) : Prop :=
  i.execute = true → i.phy_nx (i.mmu1 i.va) = false

/-- The assertion set of paging_wx_memory.is_writable, in the order the source
adds it: constraints 0,1,2, constraint_wx, constraints 3,4, the shadowed
literal-binding tautology, and write == True. -/
abbrev is_writable_asserts (va : Nat) (i : Interp) : Prop :=
  constraint0 i ∧ constraint1 i ∧ constraint2 i ∧ constraint_wx i ∧
  constraint3 i ∧ constraint4 i ∧ va % 2 ^ 32 = va % 2 ^ 32 ∧ i.write = true

/-- paging_wx_memory.is_writable(va) returns sat iff this holds. -/
abbrev is_writable (va : Nat) : Prop := ∃ i : Interp, is_writable_asserts va i

/-- The assertion set of paging_wx_memory.is_executable. -/
abbrev is_executable_asserts (va : Nat) (i : Interp) : Prop :=
  constraint0 i ∧ constraint1 i ∧ constraint2 i ∧ constraint_wx i ∧
  constraint5 i ∧ constraint6 i ∧ va % 2 ^ 32 = va % 2 ^ 32 ∧ i.execute = true

/-- paging_wx_memory.is_executable(va) returns sat iff this holds. -/
abbrev is_executable (va : Nat) : Prop := ∃ i : Interp, is_executable_asserts va i

/-- The assertion set of paging_wx_memory.basic_mapping (the source also adds
execute == True there). -/
abbrev basic_mapping_asserts (va : Nat) (i : Interp) : Prop :=
  constraint0 i ∧ constraint1 i ∧ constraint2 i ∧
  va % 2 ^ 32 = va % 2 ^ 32 ∧ i.execute = true

/-- paging_wx_memory.basic_mapping(va) returns sat iff this holds. -/
abbrev basic_mapping (va : Nat) : Prop := ∃ i : Interp, basic_mapping_asserts va i

/-- The assertion set of paging_wx_memory.is_writable_and_executable. -/
abbrev is_writable_and_executable_asserts (va : Nat) (i : Interp) : Prop :=
  constraint0 i ∧ constraint1 i ∧ constraint2 i ∧ constraint_wx i ∧
  constraint3 i ∧ constraint4 i ∧ constraint5 i ∧ constraint6 i ∧
  va % 2 ^ 32 = va % 2 ^ 32 ∧ i.execute = true ∧ i.write = true

/-- paging_wx_memory.is_writable_and_executable(va) returns sat iff this holds. -/
abbrev is_writable_and_executable (va : Nat) : Prop :=
  ∃ i : Interp, is_writable_and_executable_asserts va i

/-- A model of the write scenario: everything maps to frame 0, which is
writable (phy_ro false) and non-executable (phy_nx true). -/
def writableModel : Interp :=
  ⟨fun _ => 0, 0, 0, 0, 0, true, false,
   fun _ => false, fun _ => false, fun _ => false, fun _ => true⟩

/-- A model of the execute scenario: frame 0 is read-only and executable. -/
def executableModel : Interp :=
  ⟨fun _ => 0, 0, 0, 0, 0, false, true,
   fun _ => false, fun _ => false, fun _ => true, fun _ => false⟩

theorem writableModel_sat (va : Nat) : is_writable_asserts va writableModel :=
  ⟨rfl, by decide, by decide, by decide, fun _ => rfl, fun _ => rfl, rfl, rfl⟩

theorem executableModel_sat (va : Nat) : is_executable_asserts va executableModel :=
  ⟨rfl, by decide, by decide, by decide, fun _ => rfl, fun _ => rfl, rfl, rfl⟩

theorem executableModel_basic_sat (va : Nat) : basic_mapping_asserts va executableModel :=
  ⟨rfl, by decide, by decide, rfl, rfl⟩

end PagingWx

namespace Wxvisor

/-- Interpretation of the module-level z3 symbols of wxvisor.py, in the order
the source declares them: `mmu1`, `va`, `va1`, `va2`, `pa`, `write`,
`execute`, `ipa`, `mmu2`, `ipa1`, `ipa2`, the stage-1 page-table bits
`ro_bits`/`nx_bits`, the stage-2 (hypervisor) bits `ro_bits2`/`nx_bits2`, and
the physical permissions `phy_ro`/`phy_nx`. -/
structure Interp where
  mmu1 : Nat → Nat
  va : Nat
  va1 : Nat
  va2 : Nat
  pa : Nat
  write : Bool
  execute : Bool
  ipa : Nat
  mmu2 : Nat → Nat
  ipa1 : Nat
  ipa2 : Nat
  ro_bits : Nat → Bool
  nx_bits : Nat → Bool
  ro_bits2 : Nat → Bool
  nx_bits2 : Nat → Bool
  phy_ro : Nat → Bool
  phy_nx : Nat → Bool

/-- constraint0 = mmu1(va) == ipa -/
abbrev constraint0 (i : Interp) : Prop := i.mmu1 i.va = i.ipa

/-- constraint1 = (va & 0xFFF) == 0 -/
abbrev constraint1 (i : Interp) : Prop := i.va &&& 0xFFF = 0

/-- constraint2 = (ipa & 0xFFF) == 0 -/
abbrev constraint2 (i : Interp) : Prop := i.ipa &&& 0xFFF = 0

/-- constraint3 = mmu2(ipa) == pa -/
abbrev constraint3 (i : Interp) : Prop := i.mmu2 i.ipa = i.pa

/-- constraint4 = (pa & 0xFFF) == 0 -/
abbrev constraint4 (i : Interp) : Prop := i.pa &&& 0xFFF = 0

/-- constraint5 = Distinct(va, va1, va2) -/
abbrev constraint5 (i : Interp) : Prop :=
  i.va ≠ i.va1 ∧ i.va ≠ i.va2 ∧ i.va1 ≠ i.va2

/-- constraint6 = mmu1(va1) == ipa1 -/
abbrev constraint6 (i : Interp) : Prop := i.mmu1 i.va1 = i.ipa1

/-- constraint7 = mmu1(va2) == ipa2 -/
abbrev constraint7 (i : Interp) : Prop := i.mmu1 i.va2 = i.ipa2

/-- constraint8 = Implies(Distinct(ipa, ipa1), Distinct(mmu2(ipa), mmu2(ipa1))) -/
abbrev constraint8 (i : Interp) : Prop :=
  i.ipa ≠ i.ipa1 → i.mmu2 i.ipa ≠ i.mmu2 i.ipa1

/-- constraint9 = phy_ro(mmu2(mmu1(va))) ==
Or(ro_bits(va), ro_bits2(mmu1(va)), ro_bits(va1), ro_bits2(mmu1(va))).
Note the source repeats `ro_bits2(mmu1(va))` as the fourth disjunct; the
alias's stage-2 bit `ro_bits2(mmu1(va1))` does not occur. -/
abbrev constraint9 (i : Interp) : Prop :=
  i.phy_ro (i.mmu2 (i.mmu1 i.va)) =
    (i.ro_bits i.va || i.ro_bits2 (i.mmu1 i.va) || i.ro_bits i.va1 ||
      i.ro_bits2 (i.mmu1 i.va))

/-- constraint10 = phy_nx(mmu2(mmu1(va))) ==
Or(nx_bits(va), nx_bits2(mmu1(va)), nx_bits(va1), nx_bits2(mmu1(va1))). -/
abbrev constraint10 (i : Interp) : Prop :=
  i.phy_nx (i.mmu2 (i.mmu1 i.va)) =
    (i.nx_bits i.va || i.nx_bits2 (i.mmu1 i.va) || i.nx_bits i.va1 ||
      i.nx_bits2 (i.mmu1 i.va1))

/-- constraint_wx = Distinct(phy_ro(mmu2(mmu1(va))), phy_nx(mmu2(mmu1(va)))) -/
abbrev constraint_wx (i : Interp) : Prop :=
  i.phy_ro (i.mmu2 (i.mmu1 i.va)) ≠ i.phy_nx (i.mmu2 (i.mmu1 i.va))

/-- constraint11 = Implies(write, ro_bits2(mmu1(va)) == False) -/
abbrev constraint11 (i : Interp) : Prop :=
  i.write = true → i.ro_bits2 (i.mmu1 i.va) = false

/-- constraint12 = Implies(write, phy_ro(mmu2(mmu1(va))) == False) -/
abbrev constraint12 (i : Interp) : Prop :=
  i.write = true → i.phy_ro (i.mmu2 (i.mmu1 i.va)) = false

/-- constraint13 = Implies(execute, nx_bits2(mmu1(va)) == False) -/
abbrev constraint13 (i : Interp) : Prop :=
  i.execute = true → i.nx_bits2 (i.mmu1 i.va) = false

/-- constraint14 = Implies(execute, phy_nx(mmu2(mmu1(va))) == False) -/
abbrev constraint14 (i : Interp) : Prop :=
  i.execute = true → i.phy_nx (i.mmu2 (i.mmu1 i.va)) = false

/-- The block s.add(constraint0) ... s.add(constraint10) that every
alias-aware wxvisor scenario repeats, in source order. -/
abbrev constraints_0_10 (i : Interp) : Prop :=
  constraint0 i ∧ constraint1 i ∧ constraint2 i ∧ constraint3 i ∧
  constraint4 i ∧ constraint5 i ∧ constraint6 i ∧ constraint7 i ∧
  constraint8 i ∧ constraint9 i ∧ constraint10 i

/-- The assertion set of wxvisor.basic_mapping(va_val): constraints 0..4 and
the binding va == BitVecVal(va_val, 32). -/
abbrev basic_mapping_asserts (va_val : Nat) (i : Interp) : Prop :=
  constraint0 i ∧ constraint1 i ∧ constraint2 i ∧ constraint3 i ∧
  constraint4 i ∧ i.va = va_val % 2 ^ 32

/-- wxvisor.basic_mapping(va_val) returns sat iff this holds. -/
abbrev basic_mapping (va_val : Nat) : Prop := ∃ i : Interp, basic_mapping_asserts va_val i

/-- The assertion set of wxvisor.alias_mapping(va1_val, va2_val): constraints
0..10 and the bindings of va and va1. -/
abbrev alias_mapping_asserts (va1_val va2_val : Nat) (i : Interp) : Prop :=
  constraints_0_10 i ∧ i.va = va1_val % 2 ^ 32 ∧ i.va1 = va2_val % 2 ^ 32

/-- wxvisor.alias_mapping(va1_val, va2_val) returns sat iff this holds. -/
abbrev alias_mapping (va1_val va2_val : Nat) : Prop :=
  ∃ i : Interp, alias_mapping_asserts va1_val va2_val i

/-- The assertion set of wxvisor.is_writable(va).  The parameter shadows the
symbolic va, so the binding line asserts the tautology embedded as
`va % 2 ^ 32 = va % 2 ^ 32`. -/
abbrev is_writable_asserts (va : Nat) (i : Interp) : Prop :=
  constraints_0_10 i ∧ constraint11 i ∧ constraint12 i ∧ constraint_wx i ∧
  va % 2 ^ 32 = va % 2 ^ 32 ∧ i.write = true

/-- wxvisor.is_writable(va) returns sat iff this holds. -/
abbrev is_writable (va : Nat) : Prop := ∃ i : Interp, is_writable_asserts va i

/-- The assertion set of wxvisor.is_executable(va_val); here the parameter is
named va_val, so the symbolic va really is bound to the literal. -/
abbrev is_executable_asserts (va_val : Nat) (i : Interp) : Prop :=
  constraints_0_10 i ∧ constraint13 i ∧ constraint14 i ∧ constraint_wx i ∧
  i.va = va_val % 2 ^ 32 ∧ i.execute = true

/-- wxvisor.is_executable(va_val) returns sat iff this holds. -/
abbrev is_executable (va_val : Nat) : Prop := ∃ i : Interp, is_executable_asserts va_val i

/-- The assertion set of wxvisor.is_writable_and_executable(va_val); the line
s.add(And(write == True), (execute == True)) asserts both booleans. -/
abbrev is_writable_and_executable_asserts (va_val : Nat) (i : Interp) : Prop :=
  constraints_0_10 i ∧ constraint11 i ∧ constraint12 i ∧ constraint13 i ∧
  constraint14 i ∧ constraint_wx i ∧ i.va = va_val % 2 ^ 32 ∧
  i.write = true ∧ i.execute = true

/-- wxvisor.is_writable_and_executable(va_val) returns sat iff this holds. -/
abbrev is_writable_and_executable (va_val : Nat) : Prop :=
  ∃ i : Interp, is_writable_and_executable_asserts va_val i

/-- The assertion set of wxvisor.is_va_writable_but_alias_read_only(va_val,
va1_val): the two bindings and Distinct(ro_bits(va1), ro_bits(va)) come first,
then constraints 0..14, constraint_wx, and write == True. -/
abbrev is_va_writable_but_alias_read_only_asserts (va_val va1_val : Nat) (i : Interp) : Prop :=
  i.va = va_val % 2 ^ 32 ∧ i.va1 = va1_val % 2 ^ 32 ∧
  i.ro_bits i.va1 ≠ i.ro_bits i.va ∧
  constraints_0_10 i ∧ constraint11 i ∧ constraint12 i ∧ constraint13 i ∧
  constraint14 i ∧ constraint_wx i ∧ i.write = true

/-- wxvisor.is_va_writable_but_alias_read_only returns sat iff this holds. -/
abbrev is_va_writable_but_alias_read_only (va_val va1_val : Nat) : Prop :=
  ∃ i : Interp, is_va_writable_but_alias_read_only_asserts va_val va1_val i

/-- The assertion set of wxvisor.is_va_executable_but_alias_nx(va_val,
va1_val). -/
abbrev is_va_executable_but_alias_nx_asserts (va_val va1_val : Nat) (i : Interp) : Prop :=
  i.va = va_val % 2 ^ 32 ∧ i.va1 = va1_val % 2 ^ 32 ∧
  i.nx_bits i.va1 ≠ i.nx_bits i.va ∧
  constraints_0_10 i ∧ constraint11 i ∧ constraint12 i ∧ constraint13 i ∧
  constraint14 i ∧ constraint_wx i ∧ i.execute = true

/-- wxvisor.is_va_executable_but_alias_nx returns sat iff this holds. -/
abbrev is_va_executable_but_alias_nx (va_val va1_val : Nat) : Prop :=
  ∃ i : Interp, is_va_executable_but_alias_nx_asserts va_val va1_val i

/-- The least-privilege RO equation in the form claim C3 (and spec section 4.3)
states it, where the fourth disjunct is the alias's stage-2 declared bit
`ro_bits2(mmu1(va1))`, mirroring constraint10. -/
abbrev constraint9_alias_form (i : Interp) : Prop :=
  i.phy_ro (i.mmu2 (i.mmu1 i.va)) =
    (i.ro_bits i.va || i.ro_bits2 (i.mmu1 i.va) || i.ro_bits i.va1 ||
      i.ro_bits2 (i.mmu1 i.va1))

/-- The least-privilege NX equation in the form claim C3 states it (identical
to constraint10 of the source). -/
abbrev constraint10_alias_form (i : Interp) : Prop :=
  i.phy_nx (i.mmu2 (i.mmu1 i.va)) =
    (i.nx_bits i.va || i.nx_bits2 (i.mmu1 i.va) || i.nx_bits i.va1 ||
      i.nx_bits2 (i.mmu1 i.va1))

/-- A model of the nested write scenario: all addresses resolve to frame 0,
stage-1 marks everything non-executable, frame 0 is physically writable and
non-executable. -/
def writableModel : Interp :=
  ⟨fun _ => 0, 0, 0x1000, 0x2000, 0, true, false, 0, fun _ => 0, 0, 0,
   fun _ => false, fun _ => true, fun _ => false, fun _ => false,
   fun _ => false, fun _ => true⟩

/-- A model of the nested execute scenario for va = 0x12345000: everything
resolves to frame 0, stage-1 marks everything read-only, frame 0 is
physically read-only and executable. -/
def executableModel : Interp :=
  ⟨fun _ => 0, 0x12345000, 0, 0x1000, 0, false, true, 0, fun _ => 0, 0, 0,
   fun _ => true, fun _ => false, fun _ => false, fun _ => false,
   fun _ => true, fun _ => false⟩

/-- A model separating constraint9 as written from its alias form: mmu1 is the
identity, va = 0 and va1 = 0x1000 translate to different intermediate
addresses, and the only set RO bit is the alias's stage-2 bit
ro_bits2(0x1000). -/
def leastPrivGapModel : Interp :=
  ⟨fun a => a, 0, 0x1000, 0x2000, 0, false, false, 0, fun _ => 0, 0x1000, 0x2000,
   fun _ => false, fun _ => false, fun a => decide (a = 0x1000), fun _ => false,
   fun _ => false, fun _ => false⟩

theorem wxWritableModel_sat (va : Nat) : is_writable_asserts va writableModel :=
  ⟨by decide, fun _ => rfl, fun _ => rfl, by decide, rfl, rfl⟩

theorem wxExecutableModel_sat : is_executable_asserts 0x12345000 executableModel := by
  decide

/-- The evaluator exactly as wxvisor.basic_mapping implements it: the concrete
argument flows straight into the solver query; the source has no input
validation and no error path of any kind, so every input produces a verdict. -/
abbrev basic_mapping_run (va_val : Nat) : Option Prop := some (basic_mapping va_val)

/-- Modelled from the spec: the InputDomainError rejection of section 7, which
is absent from the source.  A concrete address violating page alignment is
rejected before constraint construction; `none` represents the raised
InputDomainError. -/
abbrev basic_mapping_specRun (va_val : Nat) : Option Prop :=
  if va_val &&& 0xFFF = 0 then some (basic_mapping va_val) else none

end Wxvisor

namespace PagingAlias

/-- Interpretation of the module-level z3 symbols of paging_alias.py (shared,
up to naming of the physical frame, with the function-local symbols of
paging_alias.v2.py's alias_mapping). -/
structure Interp where
  mmu1 : Nat → Nat
  va : Nat
  va1 : Nat
  va2 : Nat
  pa : Nat
  ro_bits : Nat → Bool
  nx_bits : Nat → Bool
  phy_ro : Nat → Bool
  phy_nx : Nat → Bool

/-- constraint0 = mmu1(va) == pa -/
abbrev constraint0 (i : Interp) : Prop := i.mmu1 i.va = i.pa

/-- constraint1 = (va & 0xFFF) == 0 -/
abbrev constraint1 (i : Interp) : Prop := i.va &&& 0xFFF = 0

/-- constraint2 = (pa & 0xFFF) == 0 -/
abbrev constraint2 (i : Interp) : Prop := i.pa &&& 0xFFF = 0

/-- constraint3 = ro_bits(va) == phy_ro(mmu1(va)) -/
abbrev constraint3 (i : Interp) : Prop := i.ro_bits i.va = i.phy_ro (i.mmu1 i.va)

/-- constraint4 = nx_bits(va) == phy_nx(mmu1(va)) -/
abbrev constraint4 (i : Interp) : Prop := i.nx_bits i.va = i.phy_nx (i.mmu1 i.va)

/-- constraint5 = Distinct(va, va1, va2) -/
abbrev constraint5 (i : Interp) : Prop :=
  i.va ≠ i.va1 ∧ i.va ≠ i.va2 ∧ i.va1 ≠ i.va2

/-- constraint6 = mmu1(va1) == pa -/
abbrev constraint6 (i : Interp) : Prop := i.mmu1 i.va1 = i.pa

/-- constraint7 = mmu1(va2) == pa -/
abbrev constraint7 (i : Interp) : Prop := i.mmu1 i.va2 = i.pa

/-- constraint8 = (va1 & 0xFFF) == 0 -/
abbrev constraint8 (i : Interp) : Prop := i.va1 &&& 0xFFF = 0

/-- constraint9 = (va2 & 0xFFF) == 0 -/
abbrev constraint9 (i : Interp) : Prop := i.va2 &&& 0xFFF = 0

/-- constraint10 = Distinct(ro_bits(va), ro_bits(va1)) -/
abbrev constraint10 (i : Interp) : Prop := i.ro_bits i.va ≠ i.ro_bits i.va1

/-- constraint11 = ro_bits(va1) == phy_ro(mmu1(va1)) -/
abbrev constraint11 (i : Interp) : Prop := i.ro_bits i.va1 = i.phy_ro (i.mmu1 i.va1)

/-- constraint12 = Distinct(nx_bits(va), nx_bits(va2)) -/
abbrev constraint12 (i : Interp) : Prop := i.nx_bits i.va ≠ i.nx_bits i.va2

/-- constraint13 = nx_bits(va2) == phy_nx(mmu1(va2)) -/
abbrev constraint13 (i : Interp) : Prop := i.nx_bits i.va2 = i.phy_nx (i.mmu1 i.va2)

/-- The full assertion set of paging_alias.py's module-level solver
(constraints 0..13, source order), which the test suite expects to be
unsatisfiable. -/
abbrev module_asserts (i : Interp) : Prop :=
  constraint0 i ∧ constraint1 i ∧ constraint2 i ∧ constraint3 i ∧
  constraint4 i ∧ constraint5 i ∧ constraint6 i ∧ constraint7 i ∧
  constraint8 i ∧ constraint9 i ∧ constraint10 i ∧ constraint11 i ∧
  constraint12 i ∧ constraint13 i

/-- The alias scenario of claim C4 without permission synchronization: the
mapping/alignment/alias constraints 0,1,2,5,6,7,8,9 of paging_alias.py, the
differing-declared-RO assertion constraint10, and the literal bindings
va = va_v, va1 = va1_v, pa = pa_v from the spec's scenario. -/
abbrev alias_diff_ro_nosync_asserts (va_v va1_v pa_v : Nat) (i : Interp) : Prop :=
  constraint0 i ∧ constraint1 i ∧ constraint2 i ∧ constraint5 i ∧
  constraint6 i ∧ constraint7 i ∧ constraint8 i ∧ constraint9 i ∧
  constraint10 i ∧ i.va = va_v % 2 ^ 32 ∧ i.va1 = va1_v % 2 ^ 32 ∧
  i.pa = pa_v % 2 ^ 32

/-- Satisfiability of the no-synchronization alias scenario. -/
abbrev alias_diff_ro_nosync (va_v va1_v pa_v : Nat) : Prop :=
  ∃ i : Interp, alias_diff_ro_nosync_asserts va_v va1_v pa_v i

/-- The same scenario with the declared-equals-physical synchronization
asserted for both aliases: constraint3 for va and constraint11 for va1. -/
abbrev alias_diff_ro_sync_asserts (va_v va1_v pa_v : Nat) (i : Interp) : Prop :=
  alias_diff_ro_nosync_asserts va_v va1_v pa_v i ∧ constraint3 i ∧ constraint11 i

/-- Satisfiability of the synchronized alias scenario. -/
abbrev alias_diff_ro_sync (va_v va1_v pa_v : Nat) : Prop :=
  ∃ i : Interp, alias_diff_ro_sync_asserts va_v va1_v pa_v i

/-- A model for the no-synchronization scenario of C4: va = 0x1000,
va1 = 0x2000 and va2 = 0x3000 all map to frame 0x5000, and only va1 has its
declared RO bit set. -/
def aliasDiffModel : Interp :=
  ⟨fun _ => 0x5000, 0x1000, 0x2000, 0x3000, 0x5000,
   fun a => decide (a = 0x2000), fun _ => false, fun _ => false, fun _ => false⟩

end PagingAlias

namespace PagingAliasWx

/-- Interpretation of the module-level z3 symbols of
paging_alias_wx_unsatisfiable.py (same signature as paging_wx_memory.py). -/
structure Interp where
  mmu1 : Nat → Nat
  va : Nat
  va1 : Nat
  va2 : Nat
  pa : Nat
  write : Bool
  execute : Bool
  ro_bits : Nat → Bool
  nx_bits : Nat → Bool
  phy_ro : Nat → Bool
  phy_nx : Nat → Bool

/-- constraint0 = mmu1(va) == pa -/
abbrev constraint0 (i : Interp) : Prop := i.mmu1 i.va = i.pa

/-- constraint1 = (va & 0xFFF) == 0 -/
abbrev constraint1 (i : Interp) : Prop := i.va &&& 0xFFF = 0

/-- constraint2 = (pa & 0xFFF) == 0 -/
abbrev constraint2 (i : Interp) : Prop := i.pa &&& 0xFFF = 0

/-- constraint_wx = Distinct(ro_bits(va), nx_bits(va)): in this module the
mutual-exclusion assertion is over the page-table-declared bits of va, not
over the physical permissions of the resolved frame. -/
abbrev constraint_wx (i : Interp) : Prop := i.ro_bits i.va ≠ i.nx_bits i.va

/-- constraint3 = Implies(write, And(ro_bits(va) == phy_ro(mmu1(va))),
(ro_bits(va) == False)).  As explained in the file header, z3py receives the
last expression in the ctx parameter and ignores it, so the asserted formula
is Implies(write, ro_bits(va) == phy_ro(mmu1(va))). -/
abbrev constraint3 (i : Interp) : Prop :=
  i.write = true → i.ro_bits i.va = i.phy_ro (i.mmu1 i.va)

/-- constraint4 = Implies(execute, And(nx_bits(va) == phy_nx(mmu1(va))),
(nx_bits(va) == False)), i.e. Implies(execute, nx_bits(va) == phy_nx(mmu1(va)))
after z3py drops the stray third argument. -/
abbrev constraint4 (i : Interp) : Prop :=
  i.execute = true → i.nx_bits i.va = i.phy_nx (i.mmu1 i.va)

/-- constraint5 = Distinct(va, va1, va2) -/
abbrev constraint5 (i : Interp) : Prop :=
  i.va ≠ i.va1 ∧ i.va ≠ i.va2 ∧ i.va1 ≠ i.va2

/-- constraint6 = mmu1(va1) == pa -/
abbrev constraint6 (i : Interp) : Prop := i.mmu1 i.va1 = i.pa

/-- constraint7 = mmu1(va2) == pa -/
abbrev constraint7 (i : Interp) : Prop := i.mmu1 i.va2 = i.pa

/-- constraint8 = (va1 & 0xFFF) == 0 -/
abbrev constraint8 (i : Interp) : Prop := i.va1 &&& 0xFFF = 0

/-- constraint9 = (va2 & 0xFFF) == 0 -/
abbrev constraint9 (i : Interp) : Prop := i.va2 &&& 0xFFF = 0

/-- constraint10 = Distinct(ro_bits(va), ro_bits(va1)) -/
abbrev constraint10 (i : Interp) : Prop := i.ro_bits i.va ≠ i.ro_bits i.va1

/-- constraint11 = ro_bits(va1) == phy_ro(mmu1(va1)) -/
abbrev constraint11 (i : Interp) : Prop := i.ro_bits i.va1 = i.phy_ro (i.mmu1 i.va1)

/-- constraint12 = Distinct(nx_bits(va), nx_bits(va2)) -/
abbrev constraint12 (i : Interp) : Prop := i.nx_bits i.va ≠ i.nx_bits i.va2

/-- constraint13 = nx_bits(va2) == phy_nx(mmu1(va2)) -/
abbrev constraint13 (i : Interp) : Prop := i.nx_bits i.va2 = i.phy_nx (i.mmu1 i.va2)

/-- The assertion set of paging_alias_wx_unsatisfiable.is_writable(va): the
parameter shadows the symbolic va, so the binding is the tautology. -/
abbrev is_writable_asserts (va : Nat) (i : Interp) : Prop :=
  constraint0 i ∧ constraint1 i ∧ constraint2 i ∧ constraint_wx i ∧
  constraint3 i ∧ constraint4 i ∧ va % 2 ^ 32 = va % 2 ^ 32 ∧ i.write = true

/-- paging_alias_wx_unsatisfiable.is_writable(va) returns True iff this holds. -/
abbrev is_writable (va : Nat) : Prop := ∃ i : Interp, is_writable_asserts va i

/-- The assertion set of paging_alias_wx_unsatisfiable.is_executable(va). -/
abbrev is_executable_asserts (va : Nat) (i : Interp) : Prop :=
  constraint0 i ∧ constraint1 i ∧ constraint2 i ∧ constraint_wx i ∧
  constraint3 i ∧ constraint4 i ∧ va % 2 ^ 32 = va % 2 ^ 32 ∧ i.execute = true

/-- paging_alias_wx_unsatisfiable.is_executable(va) returns True iff this holds. -/
abbrev is_executable (va : Nat) : Prop := ∃ i : Interp, is_executable_asserts va i

/-- The assertion set of paging_alias_wx_unsatisfiable.is_alias_writable(va):
the base constraints, the alias block 5..13, the shadowed binding, write, and
the repeated Distinct(ro_bits(va1), ro_bits(va)). -/
abbrev is_alias_writable_asserts (va : Nat) (i : Interp) : Prop :=
  constraint0 i ∧ constraint1 i ∧ constraint2 i ∧ constraint_wx i ∧
  constraint3 i ∧ constraint4 i ∧ constraint5 i ∧ constraint6 i ∧
  constraint7 i ∧ constraint8 i ∧ constraint9 i ∧ constraint10 i ∧
  constraint11 i ∧ constraint12 i ∧ constraint13 i ∧
  va % 2 ^ 32 = va % 2 ^ 32 ∧ i.write = true ∧ i.ro_bits i.va1 ≠ i.ro_bits i.va

/-- paging_alias_wx_unsatisfiable.is_alias_writable(va) returns True iff this
holds. -/
abbrev is_alias_writable (va : Nat) : Prop := ∃ i : Interp, is_alias_writable_asserts va i

/-- The assertion set of paging_alias_wx_unsatisfiable.is_alias_executable(va). -/
abbrev is_alias_executable_asserts (va : Nat) (i : Interp) : Prop :=
  constraint0 i ∧ constraint1 i ∧ constraint2 i ∧ constraint_wx i ∧
  constraint3 i ∧ constraint4 i ∧ constraint5 i ∧ constraint6 i ∧
  constraint7 i ∧ constraint8 i ∧ constraint9 i ∧ constraint10 i ∧
  constraint11 i ∧ constraint12 i ∧ constraint13 i ∧
  va % 2 ^ 32 = va % 2 ^ 32 ∧ i.execute = true ∧ i.nx_bits i.va1 ≠ i.nx_bits i.va

/-- paging_alias_wx_unsatisfiable.is_alias_executable(va) returns True iff this
holds. -/
abbrev is_alias_executable (va : Nat) : Prop := ∃ i : Interp, is_alias_executable_asserts va i

/-- A model of the is_writable scenario in which the resolved frame's physical
RO and NX flags are equal (both false): page 0 has its declared RO bit unset
and its declared NX bit set, and frame 0 carries no physical restriction at
all. -/
def physEqualModel : Interp :=
  ⟨fun _ => 0, 0, 0, 0, 0, true, false,
   fun _ => false, fun _ => true, fun _ => false, fun _ => false⟩

/-- A model of the is_writable scenario in which write is true while both the
declared RO bit and the physical RO flag of the resolved frame are true. -/
def declaredTrueModel : Interp :=
  ⟨fun _ => 0, 0, 0, 0, 0, true, false,
   fun _ => true, fun _ => false, fun _ => true, fun _ => false⟩

end PagingAliasWx

/-- One invocation of a scenario function, with its concrete arguments.  Every
scenario function in the source allocates its own Solver() before asserting
anything, so a call is fully described by the function and its arguments. -/
inductive Call where
  | pagingWxBasic (va : Nat)
  | pagingWxWritable (va : Nat)
  | pagingWxExecutable (va : Nat)
  | pagingWxWritableAndExecutable (va : Nat)
  | wxvisorBasic (va : Nat)
  | wxvisorAlias (va va1 : Nat)
  | wxvisorWritable (va : Nat)
  | wxvisorExecutable (va : Nat)
  | wxvisorWritableAndExecutable (va : Nat)
  | wxvisorWritableButAliasReadOnly (va va1 : Nat)
  | wxvisorExecutableButAliasNx (va va1 : Nat)
  | aliasWxWritable (va : Nat)
  | aliasWxExecutable (va : Nat)
  | aliasWxAliasWritable (va : Nat)
  | aliasWxAliasExecutable (va : Nat)

/-- The verdict of one scenario call: the proposition that the fresh solver the
call allocates reports sat on exactly the call's own assertion set. -/
def verdictOf : Call → Prop
  | .pagingWxBasic v => PagingWx.basic_mapping v
  | .pagingWxWritable v => PagingWx.is_writable v
  | .pagingWxExecutable v => PagingWx.is_executable v
  | .pagingWxWritableAndExecutable v => PagingWx.is_writable_and_executable v
  | .wxvisorBasic v => Wxvisor.basic_mapping v
  | .wxvisorAlias v v1 => Wxvisor.alias_mapping v v1
  | .wxvisorWritable v => Wxvisor.is_writable v
  | .wxvisorExecutable v => Wxvisor.is_executable v
  | .wxvisorWritableAndExecutable v => Wxvisor.is_writable_and_executable v
  | .wxvisorWritableButAliasReadOnly v v1 => Wxvisor.is_va_writable_but_alias_read_only v v1
  | .wxvisorExecutableButAliasNx v v1 => Wxvisor.is_va_executable_but_alias_nx v v1
  | .aliasWxWritable v => PagingAliasWx.is_writable v
  | .aliasWxExecutable v => PagingAliasWx.is_executable v
  | .aliasWxAliasWritable v => PagingAliasWx.is_alias_writable v
  | .aliasWxAliasExecutable v => PagingAliasWx.is_alias_executable v

/-- Running a sequence of scenario calls: each call allocates a fresh solver,
asserts only its own constraint set over the immutable module-level symbol
declarations, and produces its verdict. -/
def runSession : List Call → List Prop
  | [] => []
  | c :: cs => verdictOf c :: runSession cs

/-- C1: for the page-aligned address 0x12345000 the single-stage W^X scenario
functions of paging_wx_memory.py give is_writable = Satisfiable,
is_executable = Satisfiable, is_writable_and_executable = Unsatisfiable, and
the nested-model versions in wxvisor.py give the same triple. -/
theorem claim_C1 :
    PagingWx.is_writable 0x12345000 ∧ PagingWx.is_executable 0x12345000 ∧
    ¬ PagingWx.is_writable_and_executable 0x12345000 ∧
    Wxvisor.is_writable 0x12345000 ∧ Wxvisor.is_executable 0x12345000 ∧
    ¬ Wxvisor.is_writable_and_executable 0x12345000 := by
  refine ⟨⟨PagingWx.writableModel, PagingWx.writableModel_sat _⟩,
    ⟨PagingWx.executableModel, PagingWx.executableModel_sat _⟩, ?_,
    ⟨Wxvisor.writableModel, Wxvisor.wxWritableModel_sat _⟩,
    ⟨Wxvisor.executableModel, Wxvisor.wxExecutableModel_sat⟩, ?_⟩
  · rintro ⟨i, -, -, -, hwx, -, h4, -, h6, -, he, hw⟩
    exact hwx ((h4 hw).trans ((h6 he).symm))
  · rintro ⟨i, -, -, h12, -, h14, hwx, -, hw, he⟩
    exact hwx ((h12 hw).trans ((h14 he).symm))

/-- C2: in the nested two-stage model, for va = 0x12345000 and alias
va1 = 0x23456000, both alias-bypass queries of wxvisor.py are Unsatisfiable. -/
theorem claim_C2 :
    ¬ Wxvisor.is_va_writable_but_alias_read_only 0x12345000 0x23456000 ∧
    ¬ Wxvisor.is_va_executable_but_alias_nx 0x12345000 0x23456000 := by
  constructor
  · rintro ⟨i, -, -, hdiff, ⟨-, -, -, -, -, -, -, -, -, h9, -⟩, -, h12, -, -, -, hw⟩
    have hor := h9.symm.trans (h12 hw)
    simp only [Bool.or_eq_false_iff] at hor
    exact hdiff (hor.1.2.trans hor.1.1.1.symm)
  · rintro ⟨i, -, -, hdiff, ⟨-, -, -, -, -, -, -, -, -, -, h10⟩, -, -, -, h14, -, he⟩
    have hor := h10.symm.trans (h14 he)
    simp only [Bool.or_eq_false_iff] at hor
    exact hdiff (hor.1.2.trans hor.1.1.1.symm)

/-- C3: the claim states that constraint9 equates phy_ro(mmu2(mmu1(va))) with
Or(ro_bits(va), ro_bits2(mmu1(va)), ro_bits(va1), ro_bits2(mmu1(va1))).  The
source instead repeats ro_bits2(mmu1(va)) as the fourth disjunct, so the
alias's stage-2 RO bit never contributes: the model leastPrivGapModel, whose
only set bit is ro_bits2(mmu1(va1)), satisfies constraint9 as written while
violating the claimed equation.  The NX half, constraint10, does have the
claimed form. -/
theorem claim_C3_least_privilege_gap :
    Wxvisor.constraint9 Wxvisor.leastPrivGapModel ∧
    ¬ Wxvisor.constraint9_alias_form Wxvisor.leastPrivGapModel ∧
    ∀ i : Wxvisor.Interp, Wxvisor.constraint10 i ↔ Wxvisor.constraint10_alias_form i :=
  ⟨by decide, by decide, fun _ => Iff.rfl⟩

/-- C4: for the distinct aliases va = 0x1000 and va1 = 0x2000 of the frame
pa = 0x5000, asserting differing declared RO bits is Satisfiable without the
declared-equals-physical synchronization, and Unsatisfiable once constraint3
(for va) and constraint11 (for va1) of paging_alias.py are both asserted. -/
theorem claim_C4 :
    PagingAlias.alias_diff_ro_nosync 0x1000 0x2000 0x5000 ∧
    ¬ PagingAlias.alias_diff_ro_sync 0x1000 0x2000 0x5000 := by
  constructor
  · exact ⟨PagingAlias.aliasDiffModel, by decide⟩
  · rintro ⟨i, ⟨h0, -, -, -, h6, -, -, -, h10, -⟩, h3, h11⟩
    exact h10 (by rw [h3, h11, h0, h6])

/-- C5 counterexample: the claim says every scenario that includes the W^X
invariant asserts Distinct over the physical permissions of the resolved
frame.  In paging_alias_wx_unsatisfiable.is_writable the model physEqualModel
satisfies the whole assertion set while the resolved frame's physical RO and
NX flags are equal, so that scenario's W^X assertion is not the claimed one
(it is Distinct(ro_bits(va), nx_bits(va)) over the declared bits instead). -/
theorem claim_C5_counterexample :
    PagingAliasWx.is_writable_asserts 0x12345000 PagingAliasWx.physEqualModel ∧
    PagingAliasWx.physEqualModel.phy_ro
        (PagingAliasWx.physEqualModel.mmu1 PagingAliasWx.physEqualModel.va) =
      PagingAliasWx.physEqualModel.phy_nx
        (PagingAliasWx.physEqualModel.mmu1 PagingAliasWx.physEqualModel.va) := by
  decide

/-- C5 amended: in paging_wx_memory.py and wxvisor.py every scenario that
includes the W^X invariant entails Distinct over the physical permissions of
the frame the virtual address resolves to, while the four scenarios of
paging_alias_wx_unsatisfiable.py entail Distinct over the page-table-declared
ro_bits/nx_bits of the virtual address instead. -/
theorem claim_C5_amended (x y : Nat) (i : PagingWx.Interp) (j : Wxvisor.Interp)
    (k : PagingAliasWx.Interp) :
    (PagingWx.is_writable_asserts x i →
      i.phy_ro (i.mmu1 i.va) ≠ i.phy_nx (i.mmu1 i.va)) ∧
    (PagingWx.is_executable_asserts x i →
      i.phy_ro (i.mmu1 i.va) ≠ i.phy_nx (i.mmu1 i.va)) ∧
    (PagingWx.is_writable_and_executable_asserts x i →
      i.phy_ro (i.mmu1 i.va) ≠ i.phy_nx (i.mmu1 i.va)) ∧
    (Wxvisor.is_writable_asserts x j →
      j.phy_ro (j.mmu2 (j.mmu1 j.va)) ≠ j.phy_nx (j.mmu2 (j.mmu1 j.va))) ∧
    (Wxvisor.is_executable_asserts x j →
      j.phy_ro (j.mmu2 (j.mmu1 j.va)) ≠ j.phy_nx (j.mmu2 (j.mmu1 j.va))) ∧
    (Wxvisor.is_writable_and_executable_asserts x j →
      j.phy_ro (j.mmu2 (j.mmu1 j.va)) ≠ j.phy_nx (j.mmu2 (j.mmu1 j.va))) ∧
    (Wxvisor.is_va_writable_but_alias_read_only_asserts x y j →
      j.phy_ro (j.mmu2 (j.mmu1 j.va)) ≠ j.phy_nx (j.mmu2 (j.mmu1 j.va))) ∧
    (Wxvisor.is_va_executable_but_alias_nx_asserts x y j →
      j.phy_ro (j.mmu2 (j.mmu1 j.va)) ≠ j.phy_nx (j.mmu2 (j.mmu1 j.va))) ∧
    (PagingAliasWx.is_writable_asserts x k → k.ro_bits k.va ≠ k.nx_bits k.va) ∧
    (PagingAliasWx.is_executable_asserts x k → k.ro_bits k.va ≠ k.nx_bits k.va) ∧
    (PagingAliasWx.is_alias_writable_asserts x k → k.ro_bits k.va ≠ k.nx_bits k.va) ∧
    (PagingAliasWx.is_alias_executable_asserts x k → k.ro_bits k.va ≠ k.nx_bits k.va) :=
  ⟨fun h => h.2.2.2.1, fun h => h.2.2.2.1, fun h => h.2.2.2.1,
   fun h => h.2.2.2.1, fun h => h.2.2.2.1, fun h => h.2.2.2.2.2.1,
   fun h => h.2.2.2.2.2.2.2.2.1, fun h => h.2.2.2.2.2.2.2.2.1,
   fun h => h.2.2.2.1, fun h => h.2.2.2.1, fun h => h.2.2.2.1,
   fun h => h.2.2.2.1⟩

/-- C5 witness: the amended theorem applied to the satisfiable write scenario
of paging_wx_memory at 0x12345000. -/
theorem claim_C5_witness :
    PagingWx.is_writable_asserts 0x12345000 PagingWx.writableModel ∧
    PagingWx.writableModel.phy_ro
        (PagingWx.writableModel.mmu1 PagingWx.writableModel.va) ≠
      PagingWx.writableModel.phy_nx
        (PagingWx.writableModel.mmu1 PagingWx.writableModel.va) :=
  ⟨PagingWx.writableModel_sat _,
   (claim_C5_amended 0x12345000 0x23456000 PagingWx.writableModel
       Wxvisor.writableModel PagingAliasWx.physEqualModel).1
     (PagingWx.writableModel_sat _)⟩

/-- C6 counterexample: the claim says every W^X scenario asserts
Implies(Write, declaredRO == false) and Implies(Write, physicalRO == false).
The model declaredTrueModel satisfies the entire assertion set of
paging_alias_wx_unsatisfiable.is_writable with write true while both the
declared RO bit of va and the physical RO flag of the resolved frame are
true, so neither claimed implication is asserted (or even entailed) there. -/
theorem claim_C6_counterexample :
    PagingAliasWx.is_writable_asserts 0x12345000 PagingAliasWx.declaredTrueModel ∧
    PagingAliasWx.declaredTrueModel.write = true ∧
    PagingAliasWx.declaredTrueModel.ro_bits PagingAliasWx.declaredTrueModel.va = true ∧
    PagingAliasWx.declaredTrueModel.phy_ro
        (PagingAliasWx.declaredTrueModel.mmu1 PagingAliasWx.declaredTrueModel.va) =
      true := by
  decide

/-- C6 amended: in paging_wx_memory.py and wxvisor.py every W^X scenario
asserts, for each intent it constrains, both the declared-bit and the
physical-bit implication (write scenarios the write pair, execute scenarios
the execute pair, the combined and alias scenarios all four; the declared RO
bit is ro_bits(va) in the single-stage model and ro_bits2(mmu1(va)) in the
nested one).  The scenarios of paging_alias_wx_unsatisfiable.py instead
assert the synchronization implications Implies(write, ro_bits(va) ==
phy_ro(mmu1(va))) and Implies(execute, nx_bits(va) == phy_nx(mmu1(va))). -/
theorem claim_C6_amended (x y : Nat) (i : PagingWx.Interp) (j : Wxvisor.Interp)
    (k : PagingAliasWx.Interp) :
    (PagingWx.is_writable_asserts x i →
      (i.write = true → i.ro_bits i.va = false) ∧
      (i.write = true → i.phy_ro (i.mmu1 i.va) = false)) ∧
    (PagingWx.is_executable_asserts x i →
      (i.execute = true → i.nx_bits i.va = false) ∧
      (i.execute = true → i.phy_nx (i.mmu1 i.va) = false)) ∧
    (PagingWx.is_writable_and_executable_asserts x i →
      (i.write = true → i.ro_bits i.va = false) ∧
      (i.write = true → i.phy_ro (i.mmu1 i.va) = false) ∧
      (i.execute = true → i.nx_bits i.va = false) ∧
      (i.execute = true → i.phy_nx (i.mmu1 i.va) = false)) ∧
    (Wxvisor.is_writable_asserts x j →
      (j.write = true → j.ro_bits2 (j.mmu1 j.va) = false) ∧
      (j.write = true → j.phy_ro (j.mmu2 (j.mmu1 j.va)) = false)) ∧
    (Wxvisor.is_executable_asserts x j →
      (j.execute = true → j.nx_bits2 (j.mmu1 j.va) = false) ∧
      (j.execute = true → j.phy_nx (j.mmu2 (j.mmu1 j.va)) = false)) ∧
    (Wxvisor.is_writable_and_executable_asserts x j →
      (j.write = true → j.ro_bits2 (j.mmu1 j.va) = false) ∧
      (j.write = true → j.phy_ro (j.mmu2 (j.mmu1 j.va)) = false) ∧
      (j.execute = true → j.nx_bits2 (j.mmu1 j.va) = false) ∧
      (j.execute = true → j.phy_nx (j.mmu2 (j.mmu1 j.va)) = false)) ∧
    (Wxvisor.is_va_writable_but_alias_read_only_asserts x y j →
      (j.write = true → j.ro_bits2 (j.mmu1 j.va) = false) ∧
      (j.write = true → j.phy_ro (j.mmu2 (j.mmu1 j.va)) = false) ∧
      (j.execute = true → j.nx_bits2 (j.mmu1 j.va) = false) ∧
      (j.execute = true → j.phy_nx (j.mmu2 (j.mmu1 j.va)) = false)) ∧
    (Wxvisor.is_va_executable_but_alias_nx_asserts x y j →
      (j.write = true → j.ro_bits2 (j.mmu1 j.va) = false) ∧
      (j.write = true → j.phy_ro (j.mmu2 (j.mmu1 j.va)) = false) ∧
      (j.execute = true → j.nx_bits2 (j.mmu1 j.va) = false) ∧
      (j.execute = true → j.phy_nx (j.mmu2 (j.mmu1 j.va)) = false)) ∧
    (PagingAliasWx.is_writable_asserts x k →
      (k.write = true → k.ro_bits k.va = k.phy_ro (k.mmu1 k.va)) ∧
      (k.execute = true → k.nx_bits k.va = k.phy_nx (k.mmu1 k.va))) :=
  ⟨fun h => ⟨h.2.2.2.2.1, h.2.2.2.2.2.1⟩,
   fun h => ⟨h.2.2.2.2.1, h.2.2.2.2.2.1⟩,
   fun h => ⟨h.2.2.2.2.1, h.2.2.2.2.2.1, h.2.2.2.2.2.2.1, h.2.2.2.2.2.2.2.1⟩,
   fun h => ⟨h.2.1, h.2.2.1⟩,
   fun h => ⟨h.2.1, h.2.2.1⟩,
   fun h => ⟨h.2.1, h.2.2.1, h.2.2.2.1, h.2.2.2.2.1⟩,
   fun h => ⟨h.2.2.2.2.1, h.2.2.2.2.2.1, h.2.2.2.2.2.2.1, h.2.2.2.2.2.2.2.1⟩,
   fun h => ⟨h.2.2.2.2.1, h.2.2.2.2.2.1, h.2.2.2.2.2.2.1, h.2.2.2.2.2.2.2.1⟩,
   fun h => ⟨h.2.2.2.2.1, h.2.2.2.2.2.1⟩⟩

/-- C6 witness: the amended theorem applied to the satisfiable write scenario
of paging_wx_memory at 0x12345000 yields the declared-RO consequence. -/
theorem claim_C6_witness :
    PagingWx.is_writable_asserts 0x12345000 PagingWx.writableModel ∧
    PagingWx.writableModel.ro_bits PagingWx.writableModel.va = false :=
  ⟨PagingWx.writableModel_sat _,
   ((claim_C6_amended 0x12345000 0x23456000 PagingWx.writableModel
        Wxvisor.writableModel PagingAliasWx.declaredTrueModel).1
      (PagingWx.writableModel_sat _)).1 rfl⟩

/-- C7: for every 32-bit address whose low 12 bits are zero, basic_mapping is
satisfiable, both for wxvisor.basic_mapping (which binds the literal to the
symbolic va) and for paging_wx_memory.basic_mapping (whose parameter shadows
the symbolic va). -/
theorem claim_C7 (va : Nat) (hlt : va < 2 ^ 32) (ha : va &&& 0xFFF = 0) :
    Wxvisor.basic_mapping va ∧ PagingWx.basic_mapping va := by
  constructor
  · exact ⟨⟨fun _ => 0, va, 0, 0, 0, false, false, 0, fun _ => 0, 0, 0,
      fun _ => false, fun _ => false, fun _ => false, fun _ => false,
      fun _ => false, fun _ => false⟩, rfl, ha, Nat.zero_and _, rfl,
      Nat.zero_and _, (Nat.mod_eq_of_lt hlt).symm⟩
  · exact ⟨PagingWx.executableModel, PagingWx.executableModel_basic_sat va⟩

/-- C7 witness: the theorem evaluated at the aligned address 0x12345000. -/
theorem claim_C7_witness :
    (0x12345000 : Nat) < 2 ^ 32 ∧ (0x12345000 : Nat) &&& 0xFFF = 0 ∧
    (Wxvisor.basic_mapping 0x12345000 ∧ PagingWx.basic_mapping 0x12345000) :=
  ⟨by decide, by decide, claim_C7 0x12345000 (by decide) (by decide)⟩

/-- C8 counterexample: at the misaligned address 0x12345001 the source's
basic_mapping hands its constraints to the solver and returns a verdict,
whereas the spec-modelled evaluator raises InputDomainError (`none`) before
constraint construction.  No scenario function of the repository raises
anything. -/
theorem claim_C8_counterexample :
    Wxvisor.basic_mapping_run 0x12345001 =
      some (Wxvisor.basic_mapping 0x12345001) ∧
    Wxvisor.basic_mapping_specRun 0x12345001 = none :=
  ⟨rfl, if_neg (by decide)⟩

/-- C8 amended: no scenario function validates alignment or raises
InputDomainError.  A misaligned concrete address reaches the solver: the
functions that really bind the literal (wxvisor.basic_mapping and
wxvisor.is_executable here) return Unsatisfiable because the binding
contradicts the symbolic alignment constraint, and the functions whose
parameter shadows the module-level symbol ignore the argument entirely
(paging_wx_memory.is_writable stays Satisfiable). -/
theorem claim_C8_amended (va : Nat) (hlt : va < 2 ^ 32) (hmis : va &&& 0xFFF ≠ 0) :
    ¬ Wxvisor.basic_mapping va ∧ ¬ Wxvisor.is_executable va ∧
    PagingWx.is_writable va := by
  refine ⟨?_, ?_, ⟨PagingWx.writableModel, PagingWx.writableModel_sat va⟩⟩
  · rintro ⟨i, -, h1, -, -, -, hbind⟩
    rw [Nat.mod_eq_of_lt hlt] at hbind
    exact hmis (hbind ▸ h1)
  · rintro ⟨i, ⟨-, h1, -⟩, -, -, -, hbind, -⟩
    rw [Nat.mod_eq_of_lt hlt] at hbind
    exact hmis (hbind ▸ h1)

/-- C8 witness: the amended theorem evaluated at the misaligned address
0x12345001. -/
theorem claim_C8_witness :
    (0x12345001 : Nat) < 2 ^ 32 ∧ (0x12345001 : Nat) &&& 0xFFF ≠ 0 ∧
    (¬ Wxvisor.basic_mapping 0x12345001 ∧ ¬ Wxvisor.is_executable 0x12345001 ∧
      PagingWx.is_writable 0x12345001) :=
  ⟨by decide, by decide, claim_C8_amended 0x12345001 (by decide) (by decide)⟩

/-- C9: in paging_wx_memory.is_writable, is_executable and
is_writable_and_executable, and in wxvisor.is_writable, the parameter shadows
the module-level symbolic va, the literal-binding line compares the concrete
argument with itself, and the symbolic address is never constrained, so the
verdict is the same for any two argument values, aligned or not. -/
theorem claim_C9 (x y : Nat) :
    (PagingWx.is_writable x ↔ PagingWx.is_writable y) ∧
    (PagingWx.is_executable x ↔ PagingWx.is_executable y) ∧
    (PagingWx.is_writable_and_executable x ↔
      PagingWx.is_writable_and_executable y) ∧
    (Wxvisor.is_writable x ↔ Wxvisor.is_writable y) := by
  refine ⟨exists_congr fun i => ?_, exists_congr fun i => ?_,
    exists_congr fun i => ?_, exists_congr fun i => ?_⟩ <;>
    simp [PagingWx.is_writable_asserts, PagingWx.is_executable_asserts,
      PagingWx.is_writable_and_executable_asserts, Wxvisor.is_writable_asserts]

/-- C10: every scenario function allocates a fresh solver on each invocation,
so in any sequence of scenario calls the verdict at each position is exactly
the verdict of that call's own assertion set over the immutable module-level
declarations, unaffected by the calls before or after it. -/
theorem claim_C10 (pre post : List Call) (c : Call) :
    (runSession (pre ++ c :: post)).get? pre.length = some (verdictOf c) := by
  induction pre with
  | nil => rfl
  | cons a pre ih => exact ih
